import Mathlib

/-!
Verification development for the PromptArchitect client core.

This file gives a shallow embedding in Lean 4 of the governed execution
pipeline (token-bucket rate limiter, exponential-backoff retry wrapper,
model router, the three orchestration workflows) and the hybrid relevance
ranking engine (template store search, cosine similarity, usage counter),
translated from `services/geminiService.ts`, `services/storageService.ts`
and `components/ExecutionView.tsx`. JavaScript numbers are modelled as
rationals; the transcendental library functions `Math.sqrt` and
`Math.log10` (whose exact values are irrational) are abstracted as a
parameter record `JsMath`, so every definition stays computable. Wall-clock
time (`Date.now()`) is passed explicitly as a rational timestamp in
milliseconds. Network calls are modelled by an oracle indexed by the number
of raw invocations issued so far, so that call counts and per-call results
are observable.
-/

namespace PA

/-- Abstraction of the JavaScript Math library functions used by the code.
`Math.sqrt` and `Math.log10` return irrational reals in general; the
embedding is parametric in their (rational-valued) interpretations. -/
structure JsMath where
  sqrt : ℚ → ℚ
  log10 : ℚ → ℚ

/-- Substring test on character lists: does `pat` occur contiguously in the
second list? Models JavaScript `String.prototype.includes`. -/
def charsContain (pat : List Char) : List Char → Bool
  | [] => pat.isEmpty
  | c :: rest => pat.isPrefixOf (c :: rest) || charsContain pat rest

/-- JavaScript `s.includes(pat)`. -/
def strIncludes (s pat : String) : Bool :=
  charsContain pat.toList s.toList

/-- JavaScript `x || d` on an optional string: `undefined` and the empty
string (both falsy) fall back to the default. -/
def jsOr (x : Option String) (d : String) : String :=
  match x with
  | some m => if m = "" then d else m
  | none => d

/-! ### TokenBucket (`services/geminiService.ts`, SRS 7.1)

The mutable fields `tokens` / `lastRefill` together with the immutable
configuration `maxTokens` / `refillRatePerSecond` form the bucket state.
`localStorage` persistence writes exactly `{tokens, lastRefill}`; the
persisted record is modelled explicitly by `StoredCell` below. -/

structure TokenBucket where
  tokens : ℚ
  lastRefill : ℚ
  maxTokens : ℚ
  refillRatePerSecond : ℚ
  deriving DecidableEq, Repr

/-- `private refill()`: elapsed wall-clock seconds since `lastRefill`;
if positive, add `elapsed * refillRatePerSecond` capped at `maxTokens`
and update `lastRefill` (the `saveState()` call persists the same data
carried by the returned state). -/
def TokenBucket.refill (b : TokenBucket) (now : ℚ) : TokenBucket :=
  let elapsed := (now - b.lastRefill) / 1000
  if 0 < elapsed then
    { b with
      tokens := min b.maxTokens (b.tokens + elapsed * b.refillRatePerSecond)
      lastRefill := now }
  else b

/-- `async consume(cost = 1)`: refill first, then deduct `cost` when
`tokens >= cost` (returning `true`), otherwise leave the state unchanged
and return `false`. -/
def TokenBucket.consume (b : TokenBucket) (now : ℚ) (cost : ℚ) : Bool × TokenBucket :=
  let b' := b.refill now
  if cost ≤ b'.tokens then
    (true, { b' with tokens := b'.tokens - cost })
  else
    (false, b')

/-- The durable record a bucket constructor may find under its storage key:
absent (`localStorage.getItem` returned `null`), present but malformed so
that `JSON.parse` throws, or a parsed record `{tokens, lastRefill}`. -/
inductive StoredCell
  | absent
  | corrupt
  | record (tokens lastRefill : ℚ)
  deriving DecidableEq, Repr

/-- The `TokenBucket` constructor: on an absent record initialize
`tokens = maxTokens`, `lastRefill = Date.now()`; on a parsed record adopt
its fields verbatim (no clamping); on a malformed record the `JSON.parse`
call throws, which propagates out of the constructor (modelled as
`Except.error`). -/
def TokenBucket.construct (maxTokens refillRatePerSecond : ℚ) (saved : StoredCell)
    (now : ℚ) : Except Unit TokenBucket :=
  match saved with
  | .absent => .ok ⟨maxTokens, now, maxTokens, refillRatePerSecond⟩
  | .corrupt => .error ()
  | .record t l => .ok ⟨t, l, maxTokens, refillRatePerSecond⟩

/-! ### Retry wrapper (`withRetry`, FR-06) -/

/-- A JavaScript error value as observed by `withRetry`: an optional
HTTP-style `status` and an optional `message`. -/
structure JsError where
  status : Option ℕ
  message : Option String
  deriving DecidableEq, Repr

/-- The retryability test from `withRetry`:
`error.status === 503 || error.status === 500 ||
 error.message?.includes('overloaded')`. -/
def isRetryable (e : JsError) : Bool :=
  e.status == some 503 || e.status == some 500 ||
    (match e.message with
     | some m => strIncludes m "overloaded"
     | none => false)

/-- `withRetry(fn, retries = 3, delay = 1000)`. Successive attempts are the
successive values of the oracle `fn`; `idx` is the index of the next raw
attempt, and the returned number is the index after the last attempt made,
so that attempt counts are observable. On success return the value;
otherwise the guard `retries > 0 && isRetryable(error)` decides between
recursing with `retries - 1` and `delay * 2` or rethrowing the original
error; the guard is split over the `retries` pattern below. -/
def withRetry {α : Type} (fn : ℕ → Except JsError α) :
    ℕ → ℕ → ℕ → Except JsError α × ℕ
  | 0, _, idx =>
    match fn idx with
    | .ok v => (.ok v, idx + 1)
    | .error e => (.error e, idx + 1)
  | r + 1, delay, idx =>
    match fn idx with
    | .ok v => (.ok v, idx + 1)
    | .error e =>
      if isRetryable e then withRetry fn r (delay * 2) (idx + 1)
      else (.error e, idx + 1)

/-! ### Model router and workflows (`services/geminiService.ts`) -/

/-- The execution mode of a template (`types.ts` `ModelMode`). -/
inductive ModelMode
  | fast
  | smart
  | reasoning
  deriving DecidableEq, Repr

/-- The two process-wide rate-limit tiers: `flashLimiter` (15 tokens,
15/60 per second) and `proLimiter` (2 tokens, 2/60 per second). -/
inductive Tier
  | flash
  | pro
  deriving DecidableEq, Repr

/-- Result of `getModelConfig(mode)`: the model identifier, which
process-wide limiter is referenced, and the optional thinking budget. -/
structure ModelConfig where
  model : String
  tier : Tier
  thinkingBudget : Option ℕ
  deriving DecidableEq, Repr

/-- `getModelConfig`: fast (default) routes to `gemini-2.5-flash` on the
flash limiter; smart and reasoning route to `gemini-3-pro-preview` on the
pro limiter, reasoning additionally with `thinkingBudget: 1024`. -/
def getModelConfig : ModelMode → ModelConfig
  | .smart => ⟨"gemini-3-pro-preview", .pro, none⟩
  | .reasoning => ⟨"gemini-3-pro-preview", .pro, some 1024⟩
  | .fast => ⟨"gemini-2.5-flash", .flash, none⟩

/-- The string interpolated for `${mode}` in the rate-limit message. -/
def modeName : ModelMode → String
  | .fast => "fast"
  | .smart => "smart"
  | .reasoning => "reasoning"

/-- The two module-level limiter singletons
(`flashLimiter = new TokenBucket(15, 15/60, 'flash')`,
`proLimiter = new TokenBucket(2, 2/60, 'pro')`), threaded explicitly. -/
structure Buckets where
  flash : TokenBucket
  pro : TokenBucket
  deriving DecidableEq, Repr

/-- `limiter.consume()` for the limiter selected by `getModelConfig`,
updating the corresponding singleton. -/
def Buckets.consume (bk : Buckets) (t : Tier) (now : ℚ) : Bool × Buckets :=
  match t with
  | .flash =>
    let (ok, b') := bk.flash.consume now 1
    (ok, { bk with flash := b' })
  | .pro =>
    let (ok, b') := bk.pro.consume now 1
    (ok, { bk with pro := b' })

/-- `ExecutionResult.metadata` (`types.ts`): model identifier, latency in
milliseconds, optional ordered trace of steps. -/
structure ExecMetadata where
  model : String
  latency : ℚ
  steps : Option (List String)
  deriving DecidableEq, Repr

/-- `ExecutionResult` (`types.ts`): result text, optional metadata,
optional error string. The status of a failed call has no field here. -/
structure ExecutionResult where
  text : String
  metadata : Option ExecMetadata
  error : Option String
  deriving DecidableEq, Repr

/-- The network oracle: the outcome of the k-th raw model invocation of a
workflow run, given the model identifier and the request contents sent.
`ai.models.generateContent` resolving with text `t` is `.ok t` (an absent
`response.text` is modelled as the empty string, which the code treats
identically through `||`); a rejection is `.error e`. -/
def Api : Type := ℕ → String → String → Except JsError String

/-- The step-back abstraction prompt built in `executeStepBackPrompt`. -/
def stepBackPromptText (originalPrompt : String) : String :=
  "\n    You are an expert at world modeling and abstraction.\n    Take the following user request and rephrase it as a more general, abstract question.\n    User Request: " ++ originalPrompt ++ "\n    "

/-- The grounded final prompt built in `executeStepBackPrompt`. -/
def finalPromptText (abstractPrinciples originalPrompt : String) : String :=
  "\n    Use the following principles and facts to answer the user's original request.\n    \n    Principles:\n    " ++ abstractPrinciples ++ "\n\n    Original Request:\n    " ++ originalPrompt ++ "\n    "

/-- The chain-of-density rewrite prompt for iterations after the first. -/
def codRewriteText (originalPrompt currentResponse : String) : String :=
  "\n        Original Request: " ++ originalPrompt ++ "\n        Previous Response: " ++ currentResponse ++ "\n        Identify missing entities. Rewrite to include them without increasing length.\n        "

/-- `executeStandardPrompt(prompt, mode)`: one rate-limit check on the
routed tier, then one retry-wrapped call. Returns the result, the number
of raw invocations issued, and the updated limiter singletons. Latency is
reported as 0 because the embedding does not advance the clock during a
workflow. -/
def executeStandardPrompt (api : Api) (now : ℚ) (prompt : String) (mode : ModelMode)
    (bk : Buckets) : ExecutionResult × ℕ × Buckets :=
  let mc := getModelConfig mode
  let (canProceed, bk') := bk.consume mc.tier now
  if canProceed then
    match withRetry (fun k => api k mc.model prompt) 3 1000 0 with
    | (.ok t, n) =>
      ({ text := if t = "" then "No response generated." else t
         metadata := some { model := mc.model, latency := 0, steps := none }
         error := none }, n, bk')
    | (.error e, n) =>
      ({ text := ""
         metadata := none
         error := some (jsOr e.message "Unknown error occurred during execution.") }, n, bk')
  else
    ({ text := ""
       metadata := none
       error := some ("Rate limit exceeded for " ++ modeName mode ++ " mode. Please wait or switch to Fast mode.") }, 0, bk')

/-- `executeStepBackPrompt(originalPrompt, mode)`: one rate-limit check on
the routed tier; step 1 always calls `gemini-2.5-flash` with the
abstraction prompt; step 2 calls the routed model with the grounded
prompt; final text is step 2's text (`|| ""` is the identity on strings);
the catch branch returns `error: error.message` with no fallback. -/
def executeStepBackPrompt (api : Api) (now : ℚ) (originalPrompt : String)
    (mode : ModelMode) (bk : Buckets) : ExecutionResult × ℕ × Buckets :=
  let mc := getModelConfig mode
  let (ok, bk') := bk.consume mc.tier now
  if ok then
    let steps0 := ["Generating Step-Back abstraction..."]
    let stepBackModel := "gemini-2.5-flash"
    match withRetry (fun k => api k stepBackModel (stepBackPromptText originalPrompt)) 3 1000 0 with
    | (.error e, n) => ({ text := "", metadata := none, error := e.message }, n, bk')
    | (.ok t1, n1) =>
      let abstractPrinciples := t1
      let steps1 := steps0 ++ ["Abstraction: " ++ abstractPrinciples,
                               "Executing final grounded prompt..."]
      match withRetry (fun k => api k mc.model (finalPromptText abstractPrinciples originalPrompt)) 3 1000 n1 with
      | (.error e, n2) => ({ text := "", metadata := none, error := e.message }, n2, bk')
      | (.ok t2, n2) =>
        ({ text := t2
           metadata := some { model := mc.model, latency := 0, steps := some steps1 }
           error := none }, n2, bk')
  else
    ({ text := "", metadata := none, error := some "Rate limit exceeded." }, 0, bk')

/-- The body of the chain-of-density `for` loop (`ITERATIONS = 3`):
`fuel` iterations remain, `i` is the current 0-based iteration index,
`idx` the next raw-invocation index, `current` the previous iteration's
text, `steps` the accumulated trace. Returns the final text (or the first
error, which aborts the loop), the invocation index after the loop, and
the trace. -/
def codLoop (api : Api) (model originalPrompt : String) :
    ℕ → ℕ → ℕ → String → List String → Except JsError String × ℕ × List String
  | 0, _, idx, current, steps => (.ok current, idx, steps)
  | fuel + 1, i, idx, current, steps =>
    let steps' := steps ++ ["Iteration " ++ toString (i + 1) ++ "/3..."]
    let promptToSend :=
      if i = 0 then originalPrompt ++ "\nGenerate an initial concise response."
      else codRewriteText originalPrompt current
    match withRetry (fun k => api k model promptToSend) 3 1000 idx with
    | (.ok t, idx') =>
      codLoop api model originalPrompt fuel (i + 1) idx' t
        (steps' ++ ["Result " ++ toString (i + 1) ++ ": " ++ (t.take 50) ++ "..."])
    | (.error e, idx') => (.error e, idx', steps')

/-- `executeChainOfDensity(originalPrompt, mode)`: one rate-limit check,
then the 3-iteration densification loop on the routed model; final text is
the last iteration's output; the catch branch returns
`error: error.message`. -/
def executeChainOfDensity (api : Api) (now : ℚ) (originalPrompt : String)
    (mode : ModelMode) (bk : Buckets) : ExecutionResult × ℕ × Buckets :=
  let mc := getModelConfig mode
  let (ok, bk') := bk.consume mc.tier now
  if ok then
    match codLoop api mc.model originalPrompt 3 0 0 "" [] with
    | (.ok finalText, n, steps) =>
      ({ text := finalText
         metadata := some { model := mc.model, latency := 0, steps := some steps }
         error := none }, n, bk')
    | (.error e, n, _) => ({ text := "", metadata := none, error := e.message }, n, bk')
  else
    ({ text := "", metadata := none, error := some "Rate limit exceeded." }, 0, bk')

/-! ### Template store and hybrid ranking (`services/storageService.ts`) -/

/-- A typed template variable (`types.ts` `Variable`). -/
inductive VarKind
  | text
  | file
  | selection
  | stdin
  deriving DecidableEq, Repr

structure TemplateVar where
  name : String
  kind : VarKind
  defaultValue : String
  deriving DecidableEq, Repr

/-- The two algorithm flags of a template. -/
structure Algorithms where
  chainOfDensity : Bool
  stepBack : Bool
  deriving DecidableEq, Repr

structure ModelPreference where
  mode : ModelMode
  deriving DecidableEq, Repr

/-- `PromptTemplate` (`types.ts`): identity, descriptive fields, template
text, typed variables, algorithm flags, last-modified timestamp in
milliseconds, usage counter, optional tier preference, optional embedding
vector. -/
structure PromptTemplate where
  id : String
  name : String
  description : String
  tags : List String
  template : String
  /-- The source field is named `variables`, which Lean reserves. -/
  vars : List TemplateVar
  algorithms : Algorithms
  lastModified : ℚ
  usageCount : ℕ
  modelPreference : Option ModelPreference
  embedding : Option (List ℚ)
  deriving DecidableEq, Repr

/-- `incrementUsage(id)`: `findIndex` locates the first template with the
given id; if found, its `usageCount` becomes `(usageCount || 0) + 1` (the
`|| 0` guards a JavaScript `undefined`, which the numeric field here
cannot hold) and the collection is written back; otherwise nothing is
written. The first-match in-place update is expressed recursively. -/
def incrementUsage (id : String) : List PromptTemplate → List PromptTemplate
  | [] => []
  | t :: ts =>
    if t.id = id then { t with usageCount := t.usageCount + 1 } :: ts
    else t :: incrementUsage id ts

/-- The accumulator of the `cosineSimilarity` loop:
`(dotProduct, normA, normB)` after running over both vectors. -/
def cosAccum : List ℚ → List ℚ → ℚ × ℚ × ℚ
  | a :: as, b :: bs =>
    let (d, nA, nB) := cosAccum as bs
    (d + a * b, nA + a * a, nB + b * b)
  | _, _ => (0, 0, 0)

/-- `cosineSimilarity(vecA, vecB)`: mismatched lengths return 0; otherwise
`dotProduct / (Math.sqrt(normA) * Math.sqrt(normB))`. There is no
zero-norm guard in the source: when a norm is 0 the JavaScript division is
`0 / 0 = NaN`. (Lean's rational division makes `0 / 0 = 0`, so the NaN
outcome is witnessed through `cosAccum` rather than through the quotient.) -/
def cosineSimilarity (M : JsMath) (vecA vecB : List ℚ) : ℚ :=
  if vecA.length ≠ vecB.length then 0
  else
    let acc := cosAccum vecA vecB
    acc.1 / (M.sqrt acc.2.1 * M.sqrt acc.2.2)

/-- A search result object: the spread template `{...p, score}`. The
`score` property is `none` exactly when the pass-through branch returned a
plain template without attaching a score. -/
structure RankedTemplate where
  tpl : PromptTemplate
  score : Option ℚ
  deriving DecidableEq, Repr

/-- The score of `r`, reading an absent `score` property as 0. -/
def RankedTemplate.scoreVal (r : RankedTemplate) : ℚ :=
  r.score.getD 0

/-- The scoring body of `search` for one template: keyword points
(+10 name, +5 description, +3 any tag; all case-insensitive includes of
the lowercased query), semantic points (`sim * 25` when both embeddings
are present), recency boost (`max(0, 5 - daysSinceMod)` with days =
elapsed milliseconds / 86,400,000), and usage boost
(`log10(usageCount + 1) * 5`). -/
def scoreTemplate (M : JsMath) (now : ℚ) (lowerTerm : String)
    (queryEmbedding : Option (List ℚ)) (p : PromptTemplate) : ℚ :=
  let kw := (if strIncludes p.name.toLower lowerTerm then (10 : ℚ) else 0)
    + (if strIncludes p.description.toLower lowerTerm then 5 else 0)
    + (if p.tags.any (fun t => strIncludes t.toLower lowerTerm) then 3 else 0)
  let sem : ℚ :=
    match queryEmbedding, p.embedding with
    | some qe, some pe => cosineSimilarity M qe pe * 25
    | _, _ => 0
  let daysSinceMod := (now - p.lastModified) / (1000 * 60 * 60 * 24)
  let recencyBoost := max 0 (5 - daysSinceMod)
  let usageBoost := M.log10 ((p.usageCount : ℚ) + 1) * 5
  kw + sem + recencyBoost + usageBoost

/-- The descending-score order used by `.sort((a, b) => b.score - a.score)`. -/
def scoreGE (a b : RankedTemplate) : Prop :=
  b.scoreVal ≤ a.scoreVal

instance : DecidableRel scoreGE := fun a b => inferInstanceAs (Decidable (_ ≤ _))

instance : IsTotal RankedTemplate scoreGE :=
  ⟨fun a b => by unfold scoreGE; exact le_total _ _⟩

instance : IsTrans RankedTemplate scoreGE :=
  ⟨fun a b c h h' => by unfold scoreGE at *; exact le_trans h' h⟩

/-- `search(query, queryEmbedding?)` over the stored collection `all`:
an empty (falsy) query returns the collection as-is; otherwise each
template is scored against the lowercased query, entries with
`score > 0.5` are kept and sorted descending by score. JavaScript
`Array.prototype.sort` with this comparator is a stable descending sort;
it is modelled by insertion sort, which is stable and produces a
`scoreGE`-sorted permutation. -/
def search (M : JsMath) (now : ℚ) (query : String)
    (queryEmbedding : Option (List ℚ)) (all : List PromptTemplate) :
    List RankedTemplate :=
  if query = "" then all.map (fun p => ⟨p, none⟩)
  else
    let lowerTerm := query.toLower
    ((all.map (fun p => RankedTemplate.mk p (some (scoreTemplate M now lowerTerm queryEmbedding p))))
      |>.filter (fun r => (1 / 2 : ℚ) < r.scoreVal)
      |>.insertionSort scoreGE)

/-! Spec-side restatement of the §4.5 scoring contract, used to check the
code-side `scoreTemplate` by refinement. Each of the four terms is written
from the spec's words. -/

/-- Modelled from the spec: keyword term — name substring match (+10),
description substring match (+5), any tag substring match (+3),
case-insensitive. -/
def specKeyword (query : String) (p : PromptTemplate) : ℚ :=
  (if strIncludes p.name.toLower query.toLower then (10 : ℚ) else 0)
    + (if strIncludes p.description.toLower query.toLower then 5 else 0)
    + (if p.tags.any (fun t => strIncludes t.toLower query.toLower) then 3 else 0)

/-- Modelled from the spec: semantic term — only if both query and
template embeddings exist and have equal length,
`25 * cosineSimilarity(query, template)`. -/
def specSemantic (M : JsMath) (queryEmbedding : Option (List ℚ)) (p : PromptTemplate) : ℚ :=
  match queryEmbedding, p.embedding with
  | some qe, some pe => if qe.length = pe.length then 25 * cosineSimilarity M qe pe else 0
  | _, _ => 0

/-- Modelled from the spec: recency term — `max(0, 5 - daysSinceLastModified)`. -/
def specRecency (now : ℚ) (p : PromptTemplate) : ℚ :=
  max 0 (5 - (now - p.lastModified) / 86400000)

/-- Modelled from the spec: usage term — `log10(usageCount + 1) * 5`. -/
def specUsage (M : JsMath) (p : PromptTemplate) : ℚ :=
  M.log10 ((p.usageCount : ℚ) + 1) * 5

/-- Modelled from the spec: total score — the sum of the four terms. -/
def specScore (M : JsMath) (now : ℚ) (query : String)
    (queryEmbedding : Option (List ℚ)) (p : PromptTemplate) : ℚ :=
  specKeyword query p + specSemantic M queryEmbedding p
    + specRecency now p + specUsage M p

/-! ### Workflow selection (`components/ExecutionView.tsx`, `handleRun`) -/

inductive Workflow
  | direct
  | stepBackFlow
  | chainOfDensityFlow
  deriving DecidableEq, Repr

/-- The dispatch in `handleRun`: `if (prompt.algorithms.stepBack)` run the
step-back workflow, `else if (prompt.algorithms.chainOfDensity)` run
chain-of-density, else run the direct workflow. -/
def selectWorkflow (a : Algorithms) : Workflow :=
  if a.stepBack then .stepBackFlow
  else if a.chainOfDensity then .chainOfDensityFlow
  else .direct

/-! ### Sample data used by concrete witnesses -/

/-- Interpretation of the Math library in which `sqrt` is the identity and
`log10` is constantly zero; it agrees with the real functions on the
inputs 0 and 1 used by the concrete witnesses. -/
def M0 : JsMath := ⟨fun q => q, fun _ => 0⟩

/-- Fresh limiter singletons holding full capacity (15 and 2 tokens). -/
def bkFull : Buckets := ⟨⟨15, 0, 15, 1 / 4⟩, ⟨2, 0, 2, 1 / 30⟩⟩

/-- Limiter singletons holding 0 tokens, with `lastRefill` equal to the
current time so no refill accrues. -/
def bkZero : Buckets := ⟨⟨0, 0, 15, 1 / 4⟩, ⟨0, 0, 2, 1 / 30⟩⟩

/-- The bucket state adopted from the persisted record
`{tokens: 100, lastRefill: 0}` by a constructor with capacity 15. -/
def loadedBucket : TokenBucket := ⟨100, 0, 15, 1 / 4⟩

/-- An operation trace failing twice with status 503 and then succeeding. -/
def fnFlaky : ℕ → Except JsError ℕ :=
  fun k => if k < 2 then .error ⟨some 503, none⟩ else .ok 42

/-- An operation trace failing immediately with a terminal (400) error. -/
def fnFatal : ℕ → Except JsError ℕ :=
  fun _ => .error ⟨some 400, some "bad request"⟩

/-- The seeded template `seed-1` (name, description, tags, flags, tier
preference from `storageService.ts`; timestamps and usage chosen for the
witness). -/
def tplRust : PromptTemplate :=
  { id := "seed-1"
    name := "Rust Code Refactor"
    description := "Refactors Rust code for idiomatic patterns and borrow checker safety."
    tags := ["coding", "rust", "refactor"]
    template := "You are a Rust Expert."
    vars := [⟨"code_snippet", .text, ""⟩]
    algorithms := ⟨false, true⟩
    lastModified := 0
    usageCount := 0
    modelPreference := some ⟨.smart⟩
    embedding := none }

/-- A second stored template, not matched by the witness queries. -/
def tplOther : PromptTemplate :=
  { id := "seed-2"
    name := "Email Summarizer (Dense)"
    description := "Creates a high-density summary of long email threads."
    tags := ["productivity", "email", "summary"]
    template := "Summarize the following email thread."
    vars := [⟨"email_body", .text, ""⟩]
    algorithms := ⟨true, false⟩
    lastModified := 0
    usageCount := 12
    modelPreference := some ⟨.fast⟩
    embedding := none }

/-! ### Helper lemmas about the retry wrapper -/

theorem withRetry_ok_step {α : Type} (fn : ℕ → Except JsError α) (R d idx : ℕ) (v : α)
    (h : fn idx = .ok v) : withRetry fn R d idx = (.ok v, idx + 1) := by
  cases R <;> simp [withRetry, h]

theorem withRetry_allOk {α : Type} (resp : ℕ → α) (R d idx : ℕ) :
    withRetry (fun k => Except.ok (resp k)) R d idx = (.ok (resp idx), idx + 1) :=
  withRetry_ok_step _ R d idx _ rfl

theorem withRetry_stop {α : Type} (fn : ℕ → Except JsError α) (R d idx : ℕ) (e : JsError)
    (h : fn idx = .error e) (hr : isRetryable e = false) :
    withRetry fn R d idx = (.error e, idx + 1) := by
  cases R <;> simp [withRetry, h, hr]

theorem withRetry_retry_step {α : Type} (fn : ℕ → Except JsError α) (R d idx : ℕ) (e : JsError)
    (h : fn idx = .error e) (hr : isRetryable e = true) :
    withRetry fn (R + 1) d idx = withRetry fn R (d * 2) (idx + 1) := by
  simp [withRetry, h, hr]

theorem withRetry_ok_after {α : Type} (fn : ℕ → Except JsError α) (n : ℕ) :
    ∀ (R d idx : ℕ) (v : α), n ≤ R →
      (∀ k, k < n → ∃ e, fn (idx + k) = .error e ∧ isRetryable e = true) →
      fn (idx + n) = .ok v →
      withRetry fn R d idx = (.ok v, idx + n + 1) := by
  induction n with
  | zero =>
    intro R d idx v _ _ hok
    simpa using withRetry_ok_step fn R d idx v (by simpa using hok)
  | succ n ih =>
    intro R d idx v hle hfail hok
    obtain ⟨e, he, hre⟩ := hfail 0 (Nat.succ_pos n)
    cases R with
    | zero => omega
    | succ R' =>
      rw [withRetry_retry_step fn R' d idx e (by simpa using he) hre]
      have step := ih R' (d * 2) (idx + 1) v (by omega)
        (fun k hk => by
          have harith : idx + 1 + k = idx + (k + 1) := by omega
          rw [harith]
          exact hfail (k + 1) (by omega))
        (by
          have harith : idx + 1 + n = idx + (n + 1) := by omega
          rw [harith]
          exact hok)
      rw [step]
      have : idx + 1 + n + 1 = idx + (n + 1) + 1 := by omega
      rw [this]

theorem withRetry_error_after {α : Type} (fn : ℕ → Except JsError α) (m : ℕ) :
    ∀ (R d idx : ℕ) (e : JsError), m ≤ R →
      (∀ k, k < m → ∃ e', fn (idx + k) = .error e' ∧ isRetryable e' = true) →
      fn (idx + m) = .error e →
      (isRetryable e = false ∨ m = R) →
      withRetry fn R d idx = (.error e, idx + m + 1) := by
  induction m with
  | zero =>
    intro R d idx e _ _ herr hstop
    rcases hstop with hterm | hR
    · simpa using withRetry_stop fn R d idx e (by simpa using herr) hterm
    · subst hR
      simpa using by simp [withRetry, show fn idx = .error e by simpa using herr]
  | succ m ih =>
    intro R d idx e hle hfail herr hstop
    obtain ⟨e0, he0, hre0⟩ := hfail 0 (Nat.succ_pos m)
    cases R with
    | zero => omega
    | succ R' =>
      rw [withRetry_retry_step fn R' d idx e0 (by simpa using he0) hre0]
      have step := ih R' (d * 2) (idx + 1) e (by omega)
        (fun k hk => by
          have harith : idx + 1 + k = idx + (k + 1) := by omega
          rw [harith]
          exact hfail (k + 1) (by omega))
        (by
          have harith : idx + 1 + m = idx + (m + 1) := by omega
          rw [harith]
          exact herr)
        (by
          rcases hstop with hterm | hR
          · exact Or.inl hterm
          · exact Or.inr (by omega))
      rw [step]
      have : idx + 1 + m + 1 = idx + (m + 1) + 1 := by omega
      rw [this]

/-! ### Claims -/

/-- C1 (amended). The token-bucket invariant `0 ≤ tokens ≤ capacity` is
preserved by `refill` and by `consume(cost)` for every nonnegative refill
rate and nonnegative cost, starting from any state that already satisfies
it — in particular from the full state a constructor installs when no
record is persisted. (The claim's extension to states loaded from an
arbitrary persisted record is refuted by `claim_C1_cex`: the constructor
adopts the record's token count without clamping.) -/
theorem claim_C1 (b : TokenBucket) (now cost : ℚ)
    (hrate : 0 ≤ b.refillRatePerSecond)
    (h0 : 0 ≤ b.tokens) (hcap : b.tokens ≤ b.maxTokens) (hcost : 0 ≤ cost) :
    (0 ≤ (b.refill now).tokens ∧ (b.refill now).tokens ≤ (b.refill now).maxTokens) ∧
    (0 ≤ (b.consume now cost).2.tokens ∧
      (b.consume now cost).2.tokens ≤ (b.consume now cost).2.maxTokens) := by
  have hmax : 0 ≤ b.maxTokens := le_trans h0 hcap
  have hrefill : 0 ≤ (b.refill now).tokens ∧
      (b.refill now).tokens ≤ (b.refill now).maxTokens := by
    unfold TokenBucket.refill
    by_cases he : 0 < (now - b.lastRefill) / 1000
    · simp only [he, if_true]
      constructor
      · exact le_min hmax (add_nonneg h0 (mul_nonneg he.le hrate))
      · exact min_le_left _ _
    · simp only [he, if_false]
      exact ⟨h0, hcap⟩
  refine ⟨hrefill, ?_⟩
  unfold TokenBucket.consume
  by_cases hok : cost ≤ (b.refill now).tokens
  · simp only [hok, if_true]
    exact ⟨sub_nonneg.mpr hok, le_trans (sub_le_self _ hcost) hrefill.2⟩
  · simp only [hok, if_false]
    exact hrefill

/-- C1 witness: a full fast-tier bucket consuming one token two seconds
after its last refill stays within `[0, capacity]`. -/
theorem claim_C1_witness :
    (0 ≤ (TokenBucket.refill ⟨15, 0, 15, 1 / 4⟩ 2000).tokens ∧
      (TokenBucket.refill ⟨15, 0, 15, 1 / 4⟩ 2000).tokens ≤
        (TokenBucket.refill ⟨15, 0, 15, 1 / 4⟩ 2000).maxTokens) ∧
    (0 ≤ (TokenBucket.consume ⟨15, 0, 15, 1 / 4⟩ 2000 1).2.tokens ∧
      (TokenBucket.consume ⟨15, 0, 15, 1 / 4⟩ 2000 1).2.tokens ≤
        (TokenBucket.consume ⟨15, 0, 15, 1 / 4⟩ 2000 1).2.maxTokens) :=
  claim_C1 ⟨15, 0, 15, 1 / 4⟩ 2000 1 (by norm_num) (by norm_num) (by norm_num) (by norm_num)

/-- C1 counterexample to the claim as stated: constructing against the
persisted record `{tokens: 100, lastRefill: 0}` with capacity 15 succeeds
and adopts 100 tokens; a `consume()` at the same instant is granted and
leaves 99 tokens, exceeding the capacity 15. -/
theorem claim_C1_cex :
    TokenBucket.construct 15 (1 / 4) (StoredCell.record 100 0) 0 = .ok loadedBucket ∧
    (loadedBucket.consume 0 1).1 = true ∧
    ¬ ((loadedBucket.consume 0 1).2.tokens ≤ (loadedBucket.consume 0 1).2.maxTokens) := by
  refine ⟨rfl, ?_, ?_⟩ <;>
    norm_num [loadedBucket, TokenBucket.consume, TokenBucket.refill]

/-- C7 (amended). A missing durable record makes the constructor install
the full-capacity state `{tokens = capacity, lastRefill = now}`; a
present but unparseable record makes `JSON.parse` throw, so construction
fails instead of reinitializing. -/
theorem claim_C7 :
    (∀ (C r now : ℚ),
      TokenBucket.construct C r .absent now = .ok ⟨C, now, C, r⟩) ∧
    (∀ (C r now : ℚ),
      TokenBucket.construct C r .corrupt now = .error ()) :=
  ⟨fun _ _ _ => rfl, fun _ _ _ => rfl⟩

/-- C7 counterexample to the claim as stated: a corrupt record under the
flash tier's key makes construction fail rather than reinitialize. -/
theorem claim_C7_cex :
    TokenBucket.construct 15 (1 / 4) .corrupt 0 = .error () := rfl

/-- The retryability predicate of `withRetry`, phrased as the spec words
it: an error is retryable iff its status is 500 or 503 or its message
contains the marker "overloaded". -/
theorem isRetryable_iff (e : JsError) :
    isRetryable e = true ↔
      (e.status = some 500 ∨ e.status = some 503 ∨
        ∃ m, e.message = some m ∧ strIncludes m "overloaded" = true) := by
  cases hm : e.message <;>
    simp [isRetryable, hm, Bool.or_eq_true, beq_iff_eq] <;> tauto

/-- C2. `withRetry` classifies an error as retryable exactly when it has
status 500 or 503 or an "overloaded" message marker; when the operation
fails retryably `n ≤ maxRetries` times and then succeeds, the success
value is returned; and on a terminal error — a non-retryable failure, or a
retryable failure arriving when the retry budget is already spent — the
original error value is returned unchanged, with its status and message
fields intact. -/
theorem claim_C2 :
    (∀ e : JsError, isRetryable e = true ↔
      (e.status = some 500 ∨ e.status = some 503 ∨
        ∃ m, e.message = some m ∧ strIncludes m "overloaded" = true)) ∧
    (∀ (α : Type) (fn : ℕ → Except JsError α) (R d n : ℕ) (v : α),
      n ≤ R →
      (∀ k, k < n → ∃ e, fn k = .error e ∧ isRetryable e = true) →
      fn n = .ok v →
      (withRetry fn R d 0).1 = .ok v) ∧
    (∀ (α : Type) (fn : ℕ → Except JsError α) (R d m : ℕ) (e : JsError),
      m ≤ R →
      (∀ k, k < m → ∃ e', fn k = .error e' ∧ isRetryable e' = true) →
      fn m = .error e →
      (isRetryable e = false ∨ m = R) →
      (withRetry fn R d 0).1 = .error e) := by
  refine ⟨isRetryable_iff, ?_, ?_⟩
  · intro α fn R d n v hle hfail hok
    have := withRetry_ok_after fn n R d 0 v hle (by simpa using hfail) (by simpa using hok)
    simp [this]
  · intro α fn R d m e hle hfail herr hstop
    have := withRetry_error_after fn m R d 0 e hle (by simpa using hfail)
      (by simpa using herr) hstop
    simp [this]

/-- C2 witness: a 503 error is retryable; the operation failing twice with
503 and then succeeding returns 42 under 3 retries; an operation failing
with a 400 error propagates that error unchanged. -/
theorem claim_C2_witness :
    isRetryable ⟨some 503, none⟩ = true ∧
    (withRetry fnFlaky 3 1000 0).1 = .ok 42 ∧
    (withRetry fnFatal 3 1000 0).1 = .error ⟨some 400, some "bad request"⟩ :=
  ⟨(claim_C2.1 ⟨some 503, none⟩).mpr (Or.inr (Or.inl rfl)),
   claim_C2.2.1 ℕ fnFlaky 3 1000 2 42 (by norm_num)
     (fun k hk => ⟨⟨some 503, none⟩, by simp [fnFlaky, hk], rfl⟩)
     (by simp [fnFlaky]),
   claim_C2.2.2 ℕ fnFatal 3 1000 0 ⟨some 400, some "bad request"⟩ (by norm_num)
     (by omega)
     rfl
     (Or.inl (by decide))⟩

/-- C9. When both algorithm flags are set, `handleRun` dispatches to the
step-back workflow: `stepBack` is tested first, so step-back
deterministically takes precedence over chain-of-density. -/
theorem claim_C9 (a : Algorithms) (h1 : a.stepBack = true)
    (h2 : a.chainOfDensity = true) : selectWorkflow a = .stepBackFlow := by
  simp [selectWorkflow, h1]

/-- C9 witness: the template flags `{chainOfDensity: true, stepBack: true}`
select the step-back workflow. -/
theorem claim_C9_witness :
    Algorithms.stepBack ⟨true, true⟩ = true ∧
    Algorithms.chainOfDensity ⟨true, true⟩ = true ∧
    selectWorkflow ⟨true, true⟩ = .stepBackFlow :=
  ⟨rfl, rfl, claim_C9 ⟨true, true⟩ rfl rfl⟩

/-- C3. On the success path (the tier bucket grants a token and every raw
call resolves), the direct workflow issues exactly 1 model invocation, the
step-back workflow exactly 2, and the chain-of-density workflow exactly 3;
the step-back result text is exactly the second invocation's output, and
the chain-of-density result text is exactly the third (iteration 2's)
output. -/
theorem claim_C3 (resp : ℕ → String) (now : ℚ) (prompt : String) (mode : ModelMode)
    (bk : Buckets)
    (hgrant : (bk.consume (getModelConfig mode).tier now).1 = true) :
    ((executeStandardPrompt (fun k _ _ => .ok (resp k)) now prompt mode bk).2.1 = 1) ∧
    ((executeStepBackPrompt (fun k _ _ => .ok (resp k)) now prompt mode bk).2.1 = 2) ∧
    ((executeStepBackPrompt (fun k _ _ => .ok (resp k)) now prompt mode bk).1.text = resp 1) ∧
    ((executeChainOfDensity (fun k _ _ => .ok (resp k)) now prompt mode bk).2.1 = 3) ∧
    ((executeChainOfDensity (fun k _ _ => .ok (resp k)) now prompt mode bk).1.text = resp 2) := by
  rcases hpe : bk.consume (getModelConfig mode).tier now with ⟨c, bk'⟩
  rw [hpe] at hgrant
  simp only at hgrant
  subst hgrant
  refine ⟨?_, ?_, ?_, ?_, ?_⟩ <;>
  · simp only [executeStandardPrompt, executeStepBackPrompt, executeChainOfDensity, hpe]
    rfl

/-- C3 witness: against full buckets and responses `0, 1, 2, ...`, the
three workflows issue 1, 2 and 3 invocations, step-back returns response
1 and chain-of-density returns response 2. -/
theorem claim_C3_witness :
    ((bkFull.consume (getModelConfig .fast).tier 0).1 = true) ∧
    ((executeStandardPrompt (fun k _ _ => .ok (toString k)) 0 "p" .fast bkFull).2.1 = 1) ∧
    ((executeStepBackPrompt (fun k _ _ => .ok (toString k)) 0 "p" .fast bkFull).2.1 = 2) ∧
    ((executeStepBackPrompt (fun k _ _ => .ok (toString k)) 0 "p" .fast bkFull).1.text = toString 1) ∧
    ((executeChainOfDensity (fun k _ _ => .ok (toString k)) 0 "p" .fast bkFull).2.1 = 3) ∧
    ((executeChainOfDensity (fun k _ _ => .ok (toString k)) 0 "p" .fast bkFull).1.text = toString 2) := by
  have h : (bkFull.consume (getModelConfig .fast).tier 0).1 = true := by
    norm_num [bkFull, Buckets.consume, TokenBucket.consume, TokenBucket.refill, getModelConfig]
  exact ⟨h, claim_C3 (fun k => toString k) 0 "p" .fast bkFull h⟩

/-- C4. When the routed tier's bucket denies the single token checkout,
each of the three workflows returns its capacity-exceeded error result
right away with zero raw model invocations — hence zero retry attempts —
and no queued or deferred work. -/
theorem claim_C4 (api : Api) (now : ℚ) (prompt : String) (mode : ModelMode)
    (bk : Buckets)
    (hdeny : (bk.consume (getModelConfig mode).tier now).1 = false) :
    ((executeStandardPrompt api now prompt mode bk).2.1 = 0 ∧
      (executeStandardPrompt api now prompt mode bk).1.error =
        some ("Rate limit exceeded for " ++ modeName mode ++
          " mode. Please wait or switch to Fast mode.")) ∧
    ((executeStepBackPrompt api now prompt mode bk).2.1 = 0 ∧
      (executeStepBackPrompt api now prompt mode bk).1.error = some "Rate limit exceeded.") ∧
    ((executeChainOfDensity api now prompt mode bk).2.1 = 0 ∧
      (executeChainOfDensity api now prompt mode bk).1.error = some "Rate limit exceeded.") := by
  rcases hpe : bk.consume (getModelConfig mode).tier now with ⟨c, bk'⟩
  rw [hpe] at hdeny
  simp only at hdeny
  subst hdeny
  refine ⟨⟨?_, ?_⟩, ⟨?_, ?_⟩, ⟨?_, ?_⟩⟩ <;>
  · simp only [executeStandardPrompt, executeStepBackPrompt, executeChainOfDensity, hpe]
    rfl

/-- C4 witness: a fast-tier bucket holding 0 tokens with no refill accrued
denies `consume()`, and all three workflows return an error result with
zero raw invocations. -/
theorem claim_C4_witness :
    ((bkZero.consume (getModelConfig .fast).tier 0).1 = false) ∧
    ((executeStandardPrompt (fun _ _ _ => .ok "x") 0 "p" .fast bkZero).2.1 = 0 ∧
      (executeStandardPrompt (fun _ _ _ => .ok "x") 0 "p" .fast bkZero).1.error =
        some ("Rate limit exceeded for " ++ modeName .fast ++
          " mode. Please wait or switch to Fast mode.")) ∧
    ((executeStepBackPrompt (fun _ _ _ => .ok "x") 0 "p" .fast bkZero).2.1 = 0 ∧
      (executeStepBackPrompt (fun _ _ _ => .ok "x") 0 "p" .fast bkZero).1.error =
        some "Rate limit exceeded.") ∧
    ((executeChainOfDensity (fun _ _ _ => .ok "x") 0 "p" .fast bkZero).2.1 = 0 ∧
      (executeChainOfDensity (fun _ _ _ => .ok "x") 0 "p" .fast bkZero).1.error =
        some "Rate limit exceeded.") := by
  have h : (bkZero.consume (getModelConfig .fast).tier 0).1 = false := by
    norm_num [bkZero, Buckets.consume, TokenBucket.consume, TokenBucket.refill, getModelConfig]
  exact ⟨h, claim_C4 (fun _ _ _ => .ok "x") 0 "p" .fast bkZero h⟩

/-- C8 (amended). When every raw call fails with the same terminal error
carrying a nonempty message, each workflow's `ExecutionResult` populates
its `error` field with exactly that message — the message is preserved
verbatim — but the error's status is not part of the result (see
`claim_C8_cex`); the `ExecutionResult` type itself has no status field, so
status preservation as claimed fails. -/
theorem claim_C8 (e : JsError) (msg : String) (hmsg : e.message = some msg)
    (hne : msg ≠ "") (hterm : isRetryable e = false)
    (now : ℚ) (prompt : String) (mode : ModelMode) (bk : Buckets)
    (hgrant : (bk.consume (getModelConfig mode).tier now).1 = true) :
    (executeStandardPrompt (fun _ _ _ => .error e) now prompt mode bk).1.error = some msg ∧
    (executeStepBackPrompt (fun _ _ _ => .error e) now prompt mode bk).1.error = some msg ∧
    (executeChainOfDensity (fun _ _ _ => .error e) now prompt mode bk).1.error = some msg := by
  rcases hpe : bk.consume (getModelConfig mode).tier now with ⟨c, bk'⟩
  rw [hpe] at hgrant
  simp only at hgrant
  subst hgrant
  have hstop : ∀ d idx,
      withRetry (fun _ => (Except.error e : Except JsError String)) 3 d idx =
        (.error e, idx + 1) :=
    fun d idx => withRetry_stop _ 3 d idx e rfl hterm
  refine ⟨?_, ?_, ?_⟩ <;>
    simp [executeStandardPrompt, executeStepBackPrompt, executeChainOfDensity, codLoop,
      hpe, hstop, jsOr, hmsg, hne]

/-- C8 witness: a terminal 400 error with message "boom" surfaces as
`error = some "boom"` from all three workflows. -/
theorem claim_C8_witness :
    ((JsError.mk (some 400) (some "boom")).message = some "boom") ∧
    (isRetryable ⟨some 400, some "boom"⟩ = false) ∧
    ((executeStandardPrompt (fun _ _ _ => .error ⟨some 400, some "boom"⟩)
        0 "p" .fast bkFull).1.error = some "boom" ∧
      (executeStepBackPrompt (fun _ _ _ => .error ⟨some 400, some "boom"⟩)
        0 "p" .fast bkFull).1.error = some "boom" ∧
      (executeChainOfDensity (fun _ _ _ => .error ⟨some 400, some "boom"⟩)
        0 "p" .fast bkFull).1.error = some "boom") := by
  have h : (bkFull.consume (getModelConfig .fast).tier 0).1 = true := by
    norm_num [bkFull, Buckets.consume, TokenBucket.consume, TokenBucket.refill, getModelConfig]
  exact ⟨rfl, by decide,
    claim_C8 ⟨some 400, some "boom"⟩ "boom" rfl (by decide) (by decide) 0 "p" .fast bkFull h⟩

/-- C8 counterexample to the claim as stated: two terminal failures that
differ only in status (400 versus 404) produce identical
`ExecutionResult` values, so the status is not preserved in what the
orchestration caller receives. -/
theorem claim_C8_cex :
    (executeStandardPrompt (fun _ _ _ => .error ⟨some 400, some "boom"⟩) 0 "p" .fast bkFull).1 =
      (executeStandardPrompt (fun _ _ _ => .error ⟨some 404, some "boom"⟩) 0 "p" .fast bkFull).1 ∧
    (400 : ℕ) ≠ 404 := by
  refine ⟨?_, by decide⟩
  have hpe : bkFull.consume (getModelConfig .fast).tier 0 =
      (true, ⟨⟨14, 0, 15, 1 / 4⟩, ⟨2, 0, 2, 1 / 30⟩⟩) := by
    norm_num [bkFull, Buckets.consume, TokenBucket.consume, TokenBucket.refill, getModelConfig]
  have h400 : withRetry (fun _ => (Except.error ⟨some 400, some "boom"⟩ : Except JsError String))
      3 1000 0 = (.error ⟨some 400, some "boom"⟩, 1) :=
    withRetry_stop _ 3 1000 0 _ rfl (by decide)
  have h404 : withRetry (fun _ => (Except.error ⟨some 404, some "boom"⟩ : Except JsError String))
      3 1000 0 = (.error ⟨some 404, some "boom"⟩, 1) :=
    withRetry_stop _ 3 1000 0 _ rfl (by decide)
  simp [executeStandardPrompt, hpe, h400, h404, jsOr]

/-- Mismatched-length vectors short-circuit the similarity to 0. -/
theorem cosineSimilarity_length_ne (M : JsMath) {va vb : List ℚ}
    (h : va.length ≠ vb.length) : cosineSimilarity M va vb = 0 := by
  simp [cosineSimilarity, h]

/-- The code-side per-template score equals the spec-side four-term sum:
the spec's explicit equal-length guard on the semantic term coincides with
the code's behavior because `cosineSimilarity` itself returns 0 on a
length mismatch. -/
theorem scoreTemplate_eq_specScore (M : JsMath) (now : ℚ) (query : String)
    (qe : Option (List ℚ)) (p : PromptTemplate) :
    scoreTemplate M now query.toLower qe p = specScore M now query qe p := by
  unfold scoreTemplate specScore specKeyword specSemantic specRecency specUsage
  have hday : ((1000 : ℚ) * 60 * 60 * 24) = 86400000 := by norm_num
  rw [hday]
  cases qe with
  | none => ring
  | some qev =>
    cases hpe : p.embedding with
    | none => simp [hpe]
    | some pev =>
      rcases eq_or_ne qev.length pev.length with hl | hl
      · simp [hpe, hl, mul_comm]
      · simp [hpe, hl, cosineSimilarity_length_ne M hl]

/-- C5. Search with an empty query is the unscored, unsorted pass-through
of the whole stored collection; for a nonempty query every returned entry
scores strictly above 0.5, the output is sorted descending by score, and
it consists of exactly the stored templates scored by the four-term sum
(keyword + semantic + recency + usage, as restated from the spec in
`specScore`) whose score exceeds 0.5. -/
theorem claim_C5 (M : JsMath) (now : ℚ) (query : String) (qe : Option (List ℚ))
    (all : List PromptTemplate) :
    (search M now "" qe all = all.map (fun p => ⟨p, none⟩)) ∧
    (query ≠ "" →
      ((∀ r ∈ search M now query qe all, (1 / 2 : ℚ) < r.scoreVal) ∧
       List.Sorted scoreGE (search M now query qe all) ∧
       (search M now query qe all).Perm
         ((all.map (fun p => RankedTemplate.mk p (some (specScore M now query qe p)))).filter
           (fun r => (1 / 2 : ℚ) < r.scoreVal)))) := by
  constructor
  · rfl
  · intro hq
    unfold search
    rw [if_neg hq]
    refine ⟨?_, ?_, ?_⟩
    · intro r hr
      have hmem := (List.mem_insertionSort scoreGE).1 hr
      have := (List.mem_filter.mp hmem).2
      exact of_decide_eq_true this
    · exact List.sorted_insertionSort scoreGE _
    · have hperm := List.perm_insertionSort scoreGE
        ((all.map (fun p => RankedTemplate.mk p
          (some (scoreTemplate M now query.toLower qe p)))).filter
          (fun r => decide ((1 / 2 : ℚ) < r.scoreVal)))
      simpa [scoreTemplate_eq_specScore] using hperm

/-- C5 witness: the query "rust" against the store holding the seeded
"Rust Code Refactor" template (name and tag match, no embeddings) yields a
result list that is filtered above 0.5, sorted descending, and a
permutation of the spec-scored filter of the store. -/
theorem claim_C5_witness :
    ("rust" : String) ≠ "" ∧
    ((∀ r ∈ search M0 0 "rust" none [tplRust], (1 / 2 : ℚ) < r.scoreVal) ∧
     List.Sorted scoreGE (search M0 0 "rust" none [tplRust]) ∧
     (search M0 0 "rust" none [tplRust]).Perm
       (([tplRust].map (fun p => RankedTemplate.mk p (some (specScore M0 0 "rust" none p)))).filter
         (fun r => (1 / 2 : ℚ) < r.scoreVal))) :=
  ⟨by decide, (claim_C5 M0 0 "rust" none [tplRust]).2 (by decide)⟩

/-- C6 (code evaluated at the failing input). Against the equal-length
zero vectors `[0]` and `[0]`, `cosineSimilarity` passes its length guard
and returns `dotProduct / (sqrt(normA) * sqrt(normB))`, where the loop
produces `dotProduct = normA = normB = 0`; for any interpretation with
`sqrt 0 = 0` (as `Math.sqrt` has) the denominator is 0, so the JavaScript
code computes `0 / 0 = NaN` — not the 0 the claim requires for zero-norm
inputs. -/
theorem claim_C6 (M : JsMath) (h : M.sqrt 0 = 0) :
    cosineSimilarity M [(0 : ℚ)] [0] =
      (cosAccum [(0 : ℚ)] [0]).1 /
        (M.sqrt (cosAccum [(0 : ℚ)] [0]).2.1 * M.sqrt (cosAccum [(0 : ℚ)] [0]).2.2) ∧
    cosAccum [(0 : ℚ)] [0] = (0, 0, 0) ∧
    M.sqrt (cosAccum [(0 : ℚ)] [0]).2.1 * M.sqrt (cosAccum [(0 : ℚ)] [0]).2.2 = 0 := by
  have hacc : cosAccum [(0 : ℚ)] [0] = (0, 0, 0) := by
    norm_num [cosAccum]
  refine ⟨by simp [cosineSimilarity], hacc, ?_⟩
  rw [hacc]
  simp [h]

/-- C6 witness: under the interpretation `M0` (whose `sqrt` fixes 0), the
zero-vector input drives the code into a division with numerator and
denominator both 0. -/
theorem claim_C6_witness :
    M0.sqrt 0 = 0 ∧
    (cosineSimilarity M0 [(0 : ℚ)] [0] =
      (cosAccum [(0 : ℚ)] [0]).1 /
        (M0.sqrt (cosAccum [(0 : ℚ)] [0]).2.1 * M0.sqrt (cosAccum [(0 : ℚ)] [0]).2.2) ∧
    cosAccum [(0 : ℚ)] [0] = (0, 0, 0) ∧
    M0.sqrt (cosAccum [(0 : ℚ)] [0]).2.1 * M0.sqrt (cosAccum [(0 : ℚ)] [0]).2.2 = 0) :=
  ⟨rfl, claim_C6 M0 rfl⟩

/-- C10. `incrementUsage(id)` bumps exactly the `usageCount` of the first
stored template with the given id, leaving every other field of that
template (the record update touches only `usageCount`) and every other
template unchanged; when no stored template has the id the collection is
returned unchanged; and the recency score of the bumped template is
unaffected. -/
theorem claim_C10 :
    (∀ (id : String) (ts : List PromptTemplate),
      (∀ t ∈ ts, t.id ≠ id) → incrementUsage id ts = ts) ∧
    (∀ (id : String) (ts₁ : List PromptTemplate) (t : PromptTemplate)
        (ts₂ : List PromptTemplate),
      (∀ u ∈ ts₁, u.id ≠ id) → t.id = id →
      incrementUsage id (ts₁ ++ t :: ts₂) =
        ts₁ ++ { t with usageCount := t.usageCount + 1 } :: ts₂) ∧
    (∀ (now : ℚ) (t : PromptTemplate),
      specRecency now { t with usageCount := t.usageCount + 1 } = specRecency now t) := by
  refine ⟨?_, ?_, fun now t => rfl⟩
  · intro id ts hmiss
    induction ts with
    | nil => rfl
    | cons t ts ih =>
      have hne : t.id ≠ id := hmiss t (by simp)
      simp [incrementUsage, hne, ih (fun u hu => hmiss u (by simp [hu]))]
  · intro id ts₁ t ts₂ hmiss hid
    induction ts₁ with
    | nil => simp [incrementUsage, hid]
    | cons u ts₁ ih =>
      have hne : u.id ≠ id := hmiss u (by simp)
      simp [incrementUsage, hne, ih (fun u' hu' => hmiss u' (by simp [hu']))]

/-- C10 witness: incrementing `seed-1` in the two-template store bumps
only that template's counter (0 to 1) and leaves the `seed-2` entry
untouched; incrementing an id that is not stored changes nothing. -/
theorem claim_C10_witness :
    incrementUsage "seed-1" ([] ++ tplRust :: [tplOther]) =
      [] ++ { tplRust with usageCount := tplRust.usageCount + 1 } :: [tplOther] ∧
    incrementUsage "missing" [tplRust, tplOther] = [tplRust, tplOther] :=
  ⟨claim_C10.2.1 "seed-1" [] tplRust [tplOther] (by simp) rfl,
   claim_C10.1 "missing" [tplRust, tplOther] (by
     intro t ht
     rcases List.mem_pair.mp ht with h | h <;> subst h <;> simp [tplRust, tplOther])⟩

end PA
